import Mathlib

set_option maxRecDepth 8192

/-!
Shallow embedding of the UMenu taste-matching core: the keyword taste parser
and meal scorer from taste-parser.js, the preference filter
filterItemsByPreferences from mealme-service.js, and the restaurant match
scorer calculateRestaurantMatchScore from updated-server.js. JavaScript
strings are modelled as Lean String values, String.prototype.includes as a
character-list substring test, Number as Int where the source only ever
produces integers and as Rat where division or rounding occurs.
-/

/-- Model of JavaScript needle-at-head matching: the first character list is a
leading segment of the second. -/
def charsLeadMatch : List Char → List Char → Bool
  | [], _ => true
  | _ :: _, [] => false
  | c :: cs, d :: ds => c == d && charsLeadMatch cs ds

/-- The first character list occurs contiguously somewhere in the second. -/
def charsOccur : List Char → List Char → Bool
  | needle, [] => needle.isEmpty
  | needle, d :: ds => charsLeadMatch needle (d :: ds) || charsOccur needle ds

/-- Model of the JavaScript test s.includes(sub). -/
def strIncludes (s sub : String) : Bool := charsOccur sub.toList s.toList

/-- Model of JavaScript s.toLowerCase() on the ASCII data the system handles:
lower-case every character. -/
def jsToLower (s : String) : String := String.mk (s.data.map Char.toLower)

/-- Character-level worker for the whitespace split: cut at every whitespace
character, accumulating the current token in reverse. -/
def jsSplitAux : List Char → List Char → List String
  | acc, [] => [String.mk acc.reverse]
  | acc, c :: cs =>
    if c.isWhitespace then String.mk acc.reverse :: jsSplitAux [] cs
    else jsSplitAux (c :: acc) cs

/-- Model of the JavaScript whitespace split used for ingredient extraction;
runs of whitespace only differ from this model by empty tokens, which the
length filter discards either way. -/
def jsSplitWhitespace (s : String) : List String := jsSplitAux [] s.data

/-- Model of JavaScript s.trim(): drop whitespace from both ends. -/
def jsTrim (s : String) : String :=
  String.mk (((s.data.dropWhile Char.isWhitespace).reverse.dropWhile Char.isWhitespace).reverse)

/-- Model of JavaScript array.join(sep). -/
def jsJoin (sep : String) : List String → String
  | [] => ""
  | s :: ss => ss.foldl (fun acc t => acc ++ sep ++ t) s

/-- Structured taste attributes produced by the parser (taste-parser.js). -/
structure TasteAttributes where
  cuisines : List String
  heat : String
  dietary : List String
  healthGoals : List String
  foodTypes : List String
  prepMethods : List String
  ingredients : List String
  restrictions : List String
  confidence : Rat
deriving DecidableEq

/-- Menu item as normalized by getMenuItems in mealme-service.js and consumed
by the filter and the scorer. -/
structure MenuItem where
  name : String
  description : String
  category : String
  price : Int
  allergens : List String
  dietary_labels : List String
  ingredients : List String
  available : Bool
deriving DecidableEq

/-- User preferences consumed by scoreMealAgainstTaste and, as two separate
arguments, by filterItemsByPreferences. -/
structure UserPreferences where
  allergies : List String
  dietaryRestrictions : List String
deriving DecidableEq

/-- Restaurant fields read by calculateRestaurantMatchScore. -/
structure RestaurantSummary where
  name : String
  dietaryOptions : List String
  rating : Rat
deriving DecidableEq

/-- A meal carrying the score attached by the ranking pipeline; only the score
field is read by calculateRestaurantMatchScore. -/
structure ScoredMeal where
  score : Int
deriving DecidableEq

/-- CUISINE_KEYWORDS table from taste-parser.js, in declaration order. -/
def CUISINE_KEYWORDS : List (String × List String) :=
  [("italian", ["pizza", "pasta", "risotto", "gelato", "italian"]),
   ("mexican", ["tacos", "burrito", "enchilada", "mexican", "salsa", "quesadilla"]),
   ("asian", ["noodle", "ramen", "pho", "pad thai", "curry", "stir fry", "sushi", "asian"]),
   ("indian", ["curry", "tikka", "naan", "biryani", "indian", "dosa"]),
   ("japanese", ["sushi", "ramen", "tempura", "teriyaki", "japanese"]),
   ("thai", ["pad thai", "thai", "curry", "coconut", "lemongrass"]),
   ("american", ["burger", "bbq", "fried", "steak", "wings", "american"]),
   ("mediterranean", ["greek", "falafel", "hummus", "olive", "mediterranean"]),
   ("french", ["french", "coq au vin", "duck", "bourguignon"])]

/-- Trigger phrases of the spicy entry of HEAT_KEYWORDS. -/
def spicyKeywords : List String :=
  ["spicy", "hot", "fiery", "jalapeño", "habanero", "sriracha", "chili"]

/-- Trigger phrases of the mild entry of HEAT_KEYWORDS. -/
def mildKeywords : List String :=
  ["mild", "light", "gentle", "not spicy", "family friendly"]

/-- Trigger phrases of the medium entry of HEAT_KEYWORDS. -/
def mediumKeywords : List String :=
  ["medium", "some heat", "moderately spicy"]

/-- HEAT_KEYWORDS table from taste-parser.js, in declaration order. -/
def HEAT_KEYWORDS : List (String × List String) :=
  [("spicy", spicyKeywords), ("mild", mildKeywords), ("medium", mediumKeywords)]

/-- DIETARY_KEYWORDS table from taste-parser.js, in declaration order. -/
def DIETARY_KEYWORDS : List (String × List String) :=
  [("vegan", ["vegan", "no meat", "no animal", "plant based"]),
   ("vegetarian", ["vegetarian", "no meat", "meatless"]),
   ("pescetarian", ["pescetarian", "fish ok", "seafood ok"]),
   ("keto", ["keto", "low carb", "protein heavy"]),
   ("paleo", ["paleo", "primal"]),
   ("glutenfree", ["gluten free", "gluten-free", "gf", "celiac"]),
   ("halal", ["halal"]),
   ("kosher", ["kosher"])]

/-- HEALTH_GOALS_KEYWORDS table from taste-parser.js, in declaration order. -/
def HEALTH_GOALS_KEYWORDS : List (String × List String) :=
  [("heart-healthy", ["heart healthy", "low sodium", "low fat", "cardiac", "healthy heart"]),
   ("low-sodium", ["low sodium", "no salt", "salt free"]),
   ("weight-loss", ["light", "healthy", "low calorie", "diet", "weight loss"]),
   ("muscle-building", ["protein", "high protein", "muscle", "strength", "bodybuilding"]),
   ("diabetes-friendly", ["diabetes", "low sugar", "no sugar", "sugar free"])]

/-- FOOD_TYPE_KEYWORDS table from taste-parser.js, in declaration order. -/
def FOOD_TYPE_KEYWORDS : List (String × List String) :=
  [("tacos", ["tacos", "taco"]),
   ("noodles", ["noodle", "noodles", "ramen", "pho", "pad thai"]),
   ("pizza", ["pizza", "pie"]),
   ("burger", ["burger", "burgers", "beef"]),
   ("fish", ["fish", "seafood", "salmon", "tuna", "halibut"]),
   ("chicken", ["chicken", "poultry"]),
   ("steak", ["steak", "beef", "meat"]),
   ("salad", ["salad", "greens", "vegetables"]),
   ("soup", ["soup", "broth", "chowder"]),
   ("sandwich", ["sandwich", "sub", "wrap"])]

/-- PREP_KEYWORDS table from taste-parser.js, in declaration order. -/
def PREP_KEYWORDS : List (String × List String) :=
  [("grilled", ["grilled", "charred"]),
   ("fried", ["fried", "deep fried", "crispy"]),
   ("baked", ["baked", "roasted"]),
   ("raw", ["raw", "fresh"]),
   ("steamed", ["steamed", "boiled"])]

/-- keywords.some(kw =&gt; query.includes(kw)) from taste-parser.js. -/
def anyKeywordMatch (query : String) (keywords : List String) : Bool :=
  keywords.any (fun kw => strIncludes query kw)

/-- One tag-collecting loop of parseWithKeywords: the tags of every table
entry one of whose trigger phrases occurs in the query, in table order. -/
def matchTags (query : String) (table : List (String × List String)) : List String :=
  (table.filter (fun entry => anyKeywordMatch query entry.2)).map Prod.fst

/-- The heat loop of parseWithKeywords: the first HEAT_KEYWORDS entry with a
matching trigger wins and the loop breaks; the initial value none survives
when no entry matches. -/
def findHeat (query : String) : String :=
  match HEAT_KEYWORDS.find? (fun entry => anyKeywordMatch query entry.2) with
  | some entry => entry.1
  | none => "none"

/-- The flattened list of every trigger phrase of every taxonomy table, in the
concatenation order used by parseWithKeywords for ingredient exclusion. -/
def allKeywords : List String :=
  (CUISINE_KEYWORDS.map Prod.snd ++ HEAT_KEYWORDS.map Prod.snd ++
   DIETARY_KEYWORDS.map Prod.snd ++ HEALTH_GOALS_KEYWORDS.map Prod.snd ++
   FOOD_TYPE_KEYWORDS.map Prod.snd ++ PREP_KEYWORDS.map Prod.snd).flatten

/-- parseWithKeywords from taste-parser.js: lower-case the query, collect one
tag list per taxonomy table, take the first matching heat level, and keep as
ingredients the whitespace tokens longer than two characters that equal no
taxonomy trigger phrase and are neither the word and nor the word with. -/
def parseWithKeywords (tasteQuery : String) : TasteAttributes :=
  let query := jsToLower tasteQuery
  { cuisines := matchTags query CUISINE_KEYWORDS
    heat := findHeat query
    dietary := matchTags query DIETARY_KEYWORDS
    healthGoals := matchTags query HEALTH_GOALS_KEYWORDS
    foodTypes := matchTags query FOOD_TYPE_KEYWORDS
    prepMethods := matchTags query PREP_KEYWORDS
    ingredients := (jsSplitWhitespace query).filter
      (fun w => decide (2 < w.length) && !(allKeywords.contains w) &&
        w != "and" && w != "with")
    restrictions := []
    confidence := mkRat 1 2 }

/-- The zero-attribute value returned by parseTasteQuery for empty input. -/
def emptyTasteAttributes : TasteAttributes :=
  { cuisines := []
    heat := "none"
    dietary := []
    healthGoals := []
    foodTypes := []
    prepMethods := []
    ingredients := []
    restrictions := []
    confidence := 0 }

/-- parseTasteQuery from taste-parser.js with the optional model-assisted
strategy disabled (USE_LOCAL_GEMMA unset), as in the keyword-strategy
deployment the specification describes: empty or whitespace-only input
yields the zero attributes, anything else goes to parseWithKeywords. The
JavaScript guard on a string input tests exactly trimmed emptiness. -/
def parseTasteQuery (tasteQuery : String) : TasteAttributes :=
  if jsTrim tasteQuery = "" then emptyTasteAttributes else parseWithKeywords tasteQuery

/-- The item text scoreMealAgainstTaste matches against: name, description and
joined ingredient list, space-separated and lower-cased. -/
def itemTextOf (m : MenuItem) : String :=
  jsToLower (m.name ++ " " ++ m.description ++ " " ++ jsJoin " " m.ingredients)

/-- The signed score accumulated by scoreMealAgainstTaste before its final
Math.max(0, score): additive signal loops, then the allergen and unmet-dietary
penalties, in source order. -/
def scoreMealRaw (mealItem : MenuItem) (ta : TasteAttributes) (up : UserPreferences) : Int :=
  let itemText := itemTextOf mealItem
  let score : Int := 0
  let score := if 0 < ta.cuisines.length then
      ta.cuisines.foldl (fun s c => if strIncludes itemText c then s + 30 else s) score
    else score
  let score := if 0 < ta.foodTypes.length then
      ta.foodTypes.foldl (fun s t => if strIncludes itemText t then s + 25 else s) score
    else score
  let score := if 0 < ta.prepMethods.length then
      ta.prepMethods.foldl (fun s p => if strIncludes itemText p then s + 15 else s) score
    else score
  let score := if 0 < ta.ingredients.length then
      ta.ingredients.foldl (fun s i => if strIncludes itemText i then s + 10 else s) score
    else score
  let score := if 0 < ta.healthGoals.length then
      let score := if strIncludes itemText "low fat" || strIncludes itemText "healthy" then
          score + 5
        else score
      let score := if strIncludes itemText "high protein" then score + 5 else score
      if strIncludes itemText "low sodium" then score + 5 else score
    else score
  let score := if 0 < up.allergies.length then
      up.allergies.foldl (fun s a => if strIncludes itemText (jsToLower a) then s - 1000 else s) score
    else score
  let score := if 0 < up.dietaryRestrictions.length then
      if !(up.dietaryRestrictions.any (fun d => strIncludes itemText (jsToLower d))) then
        score - 100
      else score
    else score
  score

/-- scoreMealAgainstTaste from taste-parser.js: the raw signed sum, floored at
zero by the final return Math.max(0, score). -/
def scoreMealAgainstTaste (mealItem : MenuItem) (ta : TasteAttributes)
    (up : UserPreferences) : Int :=
  max 0 (scoreMealRaw mealItem ta up)

/-- The per-restriction satisfaction test inside filterItemsByPreferences:
direct label containment, or the vegetarian-from-vegan rule, or the
pescetarian-from-vegan-or-vegetarian rule; itemLabels is already
lower-cased by the caller. -/
def satisfiesRestriction (itemLabels : List String) (restriction : String) : Bool :=
  let restrictionLower := jsToLower restriction
  if itemLabels.contains restrictionLower then true
  else if restrictionLower == "vegetarian" && itemLabels.contains "vegan" then true
  else if restrictionLower == "pescetarian" &&
      (itemLabels.contains "vegan" || itemLabels.contains "vegetarian") then true
  else false

/-- The filter callback of filterItemsByPreferences from mealme-service.js:
reject on a configured allergen present among the lower-cased item allergens,
then on any unmet dietary restriction, then on unavailability; keep otherwise. -/
def keepItem (allergens dietaryRestrictions : List String) (item : MenuItem) : Bool :=
  if 0 < allergens.length &&
      allergens.any (fun a => (item.allergens.map jsToLower).contains (jsToLower a)) then
    false
  else if 0 < dietaryRestrictions.length &&
      !(dietaryRestrictions.all (fun r =>
        satisfiesRestriction (item.dietary_labels.map jsToLower) r)) then
    false
  else if item.available == false then
    false
  else
    true

/-- filterItemsByPreferences from mealme-service.js. -/
def filterItemsByPreferences (items : List MenuItem)
    (allergens dietaryRestrictions : List String) : List MenuItem :=
  items.filter (keepItem allergens dietaryRestrictions)

/-- Math.round as used on the non-negative restaurant score: floor of the
argument plus one half, which is the JavaScript rounding rule for every
finite input. -/
def jsRound (x : Rat) : Int := Int.floor (x + 1 / 2)

/-- The restaurant text calculateRestaurantMatchScore matches against: name
and joined dietary options, lower-cased. -/
def restaurantTextOf (r : RestaurantSummary) : String :=
  jsToLower (r.name ++ " " ++ jsJoin " " r.dietaryOptions)

/-- calculateRestaurantMatchScore from updated-server.js: 30 per matching
cuisine tag, the capped top-meal contribution, 20 per matching dietary tag, a
10-point bonus above rating 4, rounded at the end. -/
def calculateRestaurantMatchScore (restaurant : RestaurantSummary)
    (ta : TasteAttributes) (meals : List ScoredMeal) : Int :=
  let restaurantText := restaurantTextOf restaurant
  let score : Rat := 0
  let score := if 0 < ta.cuisines.length then
      ta.cuisines.foldl (fun s c => if strIncludes restaurantText c then s + 30 else s) score
    else score
  let score := match meals with
    | [] => score
    | m :: _ => score + min ((m.score : Rat) / 10) 40
  let score := if 0 < ta.dietary.length then
      ta.dietary.foldl (fun s d => if strIncludes restaurantText d then s + 20 else s) score
    else score
  let score := if 4 < restaurant.rating then score + 10 else score
  jsRound score

/-- The Spicy Veggie Taco item of the scoring scenario. -/
def spicyVeggieTaco : MenuItem :=
  { name := "Spicy Veggie Taco"
    description := ""
    category := ""
    price := 0
    allergens := []
    dietary_labels := ["vegetarian"]
    ingredients := []
    available := true }

/-- Empty user preferences: no allergies and no dietary restrictions. -/
def noPreferences : UserPreferences := { allergies := [], dietaryRestrictions := [] }

/-- Concrete restaurant for the aggregation witness. -/
def thaiPlace : RestaurantSummary :=
  { name := "Vegan Thai Place", dietaryOptions := ["vegan"], rating := mkRat 9 2 }

/-- Concrete taste attributes requesting thai cuisine and a vegan diet. -/
def thaiAttrs : TasteAttributes :=
  { cuisines := ["thai"]
    heat := "none"
    dietary := ["vegan"]
    healthGoals := []
    foodTypes := []
    prepMethods := []
    ingredients := []
    restrictions := []
    confidence := mkRat 1 2 }

/-- Concrete single-meal list whose top score is 120. -/
def topMeals : List ScoredMeal := [{ score := 120 }]

/-- Concrete available item carrying only the vegetarian label, used to settle
the pescetarian-implication claims. -/
def vegOnlyBowl : MenuItem :=
  { name := "Garden Bowl"
    description := ""
    category := ""
    price := 0
    allergens := []
    dietary_labels := ["vegetarian"]
    ingredients := []
    available := true }

/-- Concrete item declaring a soy allergen. -/
def soyMilkItem : MenuItem :=
  { name := "Soy Latte"
    description := ""
    category := ""
    price := 0
    allergens := ["Soy"]
    dietary_labels := []
    ingredients := []
    available := true }

/-- Concrete available item carrying only a capitalized vegan label. -/
def veganLabeledItem : MenuItem :=
  { name := "Tofu Bowl"
    description := ""
    category := ""
    price := 0
    allergens := []
    dietary_labels := ["Vegan"]
    ingredients := []
    available := true }

/-- Claim C1: an item whose declared allergen list contains a configured
allergen tag, compared case-insensitively as an exact tag, never appears in
the output of filterItemsByPreferences, whatever the dietary restrictions. -/
theorem allergen_match_excluded
    (items : List MenuItem) (allergens dietaryRestrictions : List String)
    (item : MenuItem) (a : String) (ha : a ∈ allergens)
    (hmatch : jsToLower a ∈ item.allergens.map jsToLower) :
    item ∉ filterItemsByPreferences items allergens dietaryRestrictions := by
  intro hmem
  have hkeep : keepItem allergens dietaryRestrictions item = true :=
    (List.mem_filter.mp hmem).2
  have hlen : 0 < allergens.length := List.length_pos.mpr (List.ne_nil_of_mem ha)
  simp [keepItem] at hkeep
  obtain ⟨y, hy, heq⟩ := List.mem_map.mp hmatch
  rcases hkeep.1 with hnil | hno
  · exact absurd ha (by simp [hnil])
  · exact hno a ha y hy heq

/-- Witness for claim C1 at a concrete soy-allergic configuration. -/
theorem allergen_match_excluded_witness :
    ("soy" ∈ ["soy"]) ∧ (jsToLower "soy" ∈ soyMilkItem.allergens.map jsToLower) ∧
      soyMilkItem ∉ filterItemsByPreferences [soyMilkItem] ["soy"] ["vegan"] :=
  ⟨by decide, by decide,
    allergen_match_excluded [soyMilkItem] ["soy"] ["vegan"] soyMilkItem "soy"
      (by decide) (by decide)⟩

/-- Claim C2: scoreMealAgainstTaste never returns a negative value, whatever
the item, the taste attributes and the user preferences, because the raw
signed sum is floored by the final Math.max with zero. -/
theorem scoreMeal_nonneg (mealItem : MenuItem) (ta : TasteAttributes)
    (up : UserPreferences) :
    0 ≤ scoreMealAgainstTaste mealItem ta up :=
  le_max_left 0 (scoreMealRaw mealItem ta up)

/-- Claim C3: for a non-empty required-dietary list, filterItemsByPreferences
keeps an item only if every required tag is satisfied: the lower-cased tag is
among the lower-cased item labels, or the tag is vegetarian and the item
carries vegan, or the tag is pescetarian and the item carries vegan or
vegetarian. -/
theorem dietary_only_if
    (items : List MenuItem) (allergens dietaryRestrictions : List String)
    (item : MenuItem) (r : String)
    (hmem : item ∈ filterItemsByPreferences items allergens dietaryRestrictions)
    (hr : r ∈ dietaryRestrictions) :
    jsToLower r ∈ item.dietary_labels.map jsToLower ∨
      (jsToLower r = "vegetarian" ∧ "vegan" ∈ item.dietary_labels.map jsToLower) ∨
      (jsToLower r = "pescetarian" ∧
        ("vegan" ∈ item.dietary_labels.map jsToLower ∨
         "vegetarian" ∈ item.dietary_labels.map jsToLower)) := by
  have hkeep : keepItem allergens dietaryRestrictions item = true :=
    (List.mem_filter.mp hmem).2
  have hdr : 0 < dietaryRestrictions.length := List.length_pos.mpr (List.ne_nil_of_mem hr)
  have hall : dietaryRestrictions.all
      (fun t => satisfiesRestriction (item.dietary_labels.map jsToLower) t) = true := by
    cases hc : dietaryRestrictions.all
        (fun t => satisfiesRestriction (item.dietary_labels.map jsToLower) t) with
    | true => rfl
    | false => simp [keepItem, hdr, hc] at hkeep
  have hs : satisfiesRestriction (item.dietary_labels.map jsToLower) r = true :=
    List.all_eq_true.mp hall r hr
  simp only [satisfiesRestriction] at hs
  split_ifs at hs with h1 h2 h3
  · exact Or.inl (by simpa using h1)
  · simp only [Bool.and_eq_true, beq_iff_eq] at h2
    exact Or.inr (Or.inl ⟨h2.1, by simpa using h2.2⟩)
  · simp only [Bool.and_eq_true, Bool.or_eq_true, beq_iff_eq] at h3
    refine Or.inr (Or.inr ⟨h3.1, ?_⟩)
    rcases h3.2 with h | h
    · exact Or.inl (by simpa using h)
    · exact Or.inr (by simpa using h)

/-- Witness for claim C3: a capitalized vegan label satisfies a required
vegetarian tag through the implication rule. -/
theorem dietary_only_if_witness :
    (veganLabeledItem ∈ filterItemsByPreferences [veganLabeledItem] [] ["Vegetarian"]) ∧
      ("Vegetarian" ∈ ["Vegetarian"]) ∧
      (jsToLower "Vegetarian" ∈ veganLabeledItem.dietary_labels.map jsToLower ∨
        (jsToLower "Vegetarian" = "vegetarian" ∧
          "vegan" ∈ veganLabeledItem.dietary_labels.map jsToLower) ∨
        (jsToLower "Vegetarian" = "pescetarian" ∧
          ("vegan" ∈ veganLabeledItem.dietary_labels.map jsToLower ∨
           "vegetarian" ∈ veganLabeledItem.dietary_labels.map jsToLower))) :=
  ⟨by decide, by decide,
    dietary_only_if [veganLabeledItem] [] ["Vegetarian"] veganLabeledItem "Vegetarian"
      (by decide) (by decide)⟩

/-- Counterexample to claim C4 as stated: an available item labeled only
vegetarian is NOT excluded by a required pescetarian tag; the implication
table of filterItemsByPreferences lets vegetarian satisfy pescetarian, so the
item survives the filter. -/
theorem vegetarian_passes_pescetarian_filter :
    vegOnlyBowl ∈ filterItemsByPreferences [vegOnlyBowl] [] ["pescetarian"] := by
  decide

/-- Claim C4 as amended: an available item whose dietary-label list is exactly
the single label vegetarian is INCLUDED by filterItemsByPreferences under a
required pescetarian tag with no allergens configured, by the
pescetarian-from-vegetarian implication rule. -/
theorem pescetarian_accepts_vegetarian_label
    (item : MenuItem) (items : List MenuItem) (hmem : item ∈ items)
    (hav : item.available = true) (hlab : item.dietary_labels = ["vegetarian"]) :
    item ∈ filterItemsByPreferences items [] ["pescetarian"] := by
  refine List.mem_filter.mpr ⟨hmem, ?_⟩
  simp [keepItem, satisfiesRestriction, hav, hlab]
  decide

/-- Witness for the amended claim C4 at the concrete vegetarian-only item. -/
theorem pescetarian_accepts_vegetarian_label_witness :
    vegOnlyBowl ∈ [vegOnlyBowl] ∧ vegOnlyBowl.available = true ∧
      vegOnlyBowl.dietary_labels = ["vegetarian"] ∧
      vegOnlyBowl ∈ filterItemsByPreferences [vegOnlyBowl] [] ["pescetarian"] :=
  ⟨by decide, rfl, rfl,
    pescetarian_accepts_vegetarian_label vegOnlyBowl [vegOnlyBowl] (by decide) rfl rfl⟩

/-- Claim C10: the heat field never influences scoring; two attribute values
differing only in heat give identical scoreMealAgainstTaste results, since the
scorer reads cuisines, foodTypes, prepMethods, ingredients, healthGoals and
the user preferences but never heat. -/
theorem heat_noninterference (mealItem : MenuItem) (ta : TasteAttributes)
    (h1 h2 : String) (up : UserPreferences) :
    scoreMealAgainstTaste mealItem { ta with heat := h1 } up =
      scoreMealAgainstTaste mealItem { ta with heat := h2 } up := rfl

/-- A 30-or-20-points-per-hit forEach loop is the per-hit constant times the
number of matching tags. -/
theorem foldl_add_if (k : Rat) (p : String → Bool) :
    ∀ (l : List String) (init : Rat),
      List.foldl (fun s c => if p c then s + k else s) init l =
        init + k * ((l.filter p).length : Rat) := by
  intro l
  induction l with
  | nil => intro init; simp
  | cons c cs ih =>
    intro init
    by_cases h : p c = true
    · rw [List.foldl_cons, if_pos h, ih, List.filter_cons, if_pos h, List.length_cons]
      push_cast
      ring
    · rw [List.foldl_cons, if_neg h, ih, List.filter_cons, if_neg h]

/-- The guarded form of the loop used in calculateRestaurantMatchScore: the
emptiness guard is redundant because an empty loop adds nothing. -/
theorem guardedFold (k : Rat) (p : String → Bool) (l : List String) (init : Rat) :
    (if 0 < l.length then
        List.foldl (fun s c => if p c then s + k else s) init l
      else init) =
      init + k * ((l.filter p).length : Rat) := by
  cases l with
  | nil => simp
  | cons c cs =>
    rw [if_pos (by simp)]
    exact foldl_add_if k p (c :: cs) init

/-- Rounding a non-negative rational yields a non-negative integer. -/
theorem jsRound_nonneg (x : Rat) (hx : 0 ≤ x) : 0 ≤ jsRound x := by
  unfold jsRound
  refine Int.le_floor.mpr ?_
  push_cast
  linarith

/-- Every tag collected by a keyword-table loop is a tag of that table. -/
theorem matchTags_tags_all (query : String) (table : List (String × List String)) :
    (matchTags query table).all (fun t => (table.map Prod.fst).contains t) = true := by
  rw [List.all_eq_true]
  intro t ht
  obtain ⟨entry, hentry, rfl⟩ := List.mem_map.mp ht
  have hmem : entry ∈ table := (List.mem_filter.mp hentry).1
  simpa using List.mem_map_of_mem Prod.fst hmem

/-- Counterexample to claim C5 as stated: scoring the Spicy Veggie Taco item
against the attributes parsed from the query spicy vegetarian tacos with empty
preferences does NOT reach 55; the scorer matches the tag strings mexican and
tacos against the item text spicy veggie taco, and neither occurs there. -/
theorem spicyTaco_score_below_55 :
    ¬ (55 ≤ scoreMealAgainstTaste spicyVeggieTaco
        (parseTasteQuery "spicy vegetarian tacos") noPreferences) := by
  decide

/-- Claim C5 as amended: the query parses to the expected attributes, yet the
item scores exactly 0 with a raw sum of exactly 0 — no positive signal fires
because the tag strings do not occur in the item text, and no allergen or
dietary penalty applies with empty preferences. -/
theorem spicyTaco_score_amended :
    parseTasteQuery "spicy vegetarian tacos" =
      { cuisines := ["mexican"]
        heat := "spicy"
        dietary := ["vegetarian"]
        healthGoals := []
        foodTypes := ["tacos"]
        prepMethods := []
        ingredients := []
        restrictions := []
        confidence := mkRat 1 2 } ∧
    scoreMealRaw spicyVeggieTaco (parseTasteQuery "spicy vegetarian tacos")
      noPreferences = 0 ∧
    scoreMealAgainstTaste spicyVeggieTaco (parseTasteQuery "spicy vegetarian tacos")
      noPreferences = 0 := by
  decide

/-- Claim C6: parseTasteQuery yields the all-empty zero-confidence attributes
on empty or whitespace-only input, and confidence one half — strictly positive
— on any other input; as a total Lean function it never fails on any string. -/
theorem parseTasteQuery_confidence (q : String) :
    (jsTrim q = "" → parseTasteQuery q = emptyTasteAttributes) ∧
    (jsTrim q ≠ "" →
      (parseTasteQuery q).confidence = mkRat 1 2 ∧
        0 < (parseTasteQuery q).confidence) := by
  constructor
  · intro h
    simp [parseTasteQuery, h]
  · intro h
    have hq : parseTasteQuery q = parseWithKeywords q := by
      simp [parseTasteQuery, h]
    rw [hq]
    exact ⟨rfl, show (0 : Rat) < mkRat 1 2 by decide⟩

/-- Witness for claim C6 on whitespace-only and non-empty concrete inputs. -/
theorem parseTasteQuery_confidence_witness :
    (jsTrim "   " = "" ∧ parseTasteQuery "   " = emptyTasteAttributes) ∧
      (jsTrim "spicy tacos" ≠ "" ∧
        (parseTasteQuery "spicy tacos").confidence = mkRat 1 2) :=
  ⟨⟨by decide, (parseTasteQuery_confidence "   ").1 (by decide)⟩,
   ⟨by decide, ((parseTasteQuery_confidence "spicy tacos").2 (by decide)).1⟩⟩

/-- The heat loop characterized by its three category tests in declared order. -/
theorem findHeat_eq (query : String) :
    findHeat query =
      (if anyKeywordMatch query spicyKeywords then "spicy"
       else if anyKeywordMatch query mildKeywords then "mild"
       else if anyKeywordMatch query mediumKeywords then "medium"
       else "none") := by
  unfold findHeat HEAT_KEYWORDS
  cases h1 : anyKeywordMatch query spicyKeywords <;>
    cases h2 : anyKeywordMatch query mildKeywords <;>
      cases h3 : anyKeywordMatch query mediumKeywords <;>
        simp [List.find?, h1, h2, h3]

/-- Claim C7: the parser assigns exactly one heat value, testing spicy, then
mild, then medium, in that fixed order against the lower-cased query, keeping
the first category with a matching trigger and none otherwise. -/
theorem heat_single_first_match (q : String) :
    (parseWithKeywords q).heat =
      (if anyKeywordMatch (jsToLower q) spicyKeywords then "spicy"
       else if anyKeywordMatch (jsToLower q) mildKeywords then "mild"
       else if anyKeywordMatch (jsToLower q) mediumKeywords then "medium"
       else "none") ∧
    (parseWithKeywords q).heat ∈ ["spicy", "mild", "medium", "none"] := by
  have hh : (parseWithKeywords q).heat = findHeat (jsToLower q) := rfl
  rw [hh, findHeat_eq]
  refine ⟨rfl, ?_⟩
  split_ifs <;> simp

/-- Claim C8: for every query string, the ingredients field is exactly the
whitespace tokens of the lower-cased query longer than two characters that
equal no flattened taxonomy trigger phrase and are neither and nor with, in
order with duplicates; hence no ingredient is a taxonomy trigger phrase, and
every set field holds only tags of its taxonomy table. -/
theorem ingredients_spec (q : String) :
    ((parseWithKeywords q).ingredients =
      (jsSplitWhitespace (jsToLower q)).filter
        (fun t => decide (2 < t.length) && !(allKeywords.contains t) &&
          t != "and" && t != "with")) ∧
    (∀ w ∈ (parseWithKeywords q).ingredients,
      2 < w.length ∧ w ∉ allKeywords ∧ w ≠ "and" ∧ w ≠ "with") ∧
    ((parseWithKeywords q).cuisines.all
        (fun t => (CUISINE_KEYWORDS.map Prod.fst).contains t) = true) ∧
    ((parseWithKeywords q).dietary.all
        (fun t => (DIETARY_KEYWORDS.map Prod.fst).contains t) = true) ∧
    ((parseWithKeywords q).healthGoals.all
        (fun t => (HEALTH_GOALS_KEYWORDS.map Prod.fst).contains t) = true) ∧
    ((parseWithKeywords q).foodTypes.all
        (fun t => (FOOD_TYPE_KEYWORDS.map Prod.fst).contains t) = true) ∧
    ((parseWithKeywords q).prepMethods.all
        (fun t => (PREP_KEYWORDS.map Prod.fst).contains t) = true) := by
  refine ⟨rfl, ?_,
    matchTags_tags_all (jsToLower q) CUISINE_KEYWORDS,
    matchTags_tags_all (jsToLower q) DIETARY_KEYWORDS,
    matchTags_tags_all (jsToLower q) HEALTH_GOALS_KEYWORDS,
    matchTags_tags_all (jsToLower q) FOOD_TYPE_KEYWORDS,
    matchTags_tags_all (jsToLower q) PREP_KEYWORDS⟩
  intro w hw
  have hpred := (List.mem_filter.mp hw).2
  simp only [Bool.and_eq_true, decide_eq_true_eq, Bool.not_eq_true',
    bne_iff_ne, ne_eq] at hpred
  refine ⟨hpred.1.1.1, ?_, hpred.1.2, hpred.2⟩
  have := hpred.1.1.2
  simpa using this

/-- Witness for claim C8: at a concrete query, the token mango survives as an
ingredient and the instantiated universal gives every stated token property. -/
theorem ingredients_spec_witness :
    ("mango" ∈ (parseWithKeywords "fresh mango and rice").ingredients) ∧
      (2 < "mango".length ∧ "mango" ∉ allKeywords ∧ "mango" ≠ "and" ∧
        "mango" ≠ "with") :=
  ⟨by decide, (ingredients_spec "fresh mango and rice").2.1 "mango" (by decide)⟩

/-- Claim C9: the restaurant match score is the rounding of 30 per requested
cuisine tag found in the restaurant text, plus 20 per requested dietary tag
found there, plus the capped top-meal contribution when meals exist, plus the
10-point bonus above rating 4; and it is non-negative whenever the meal scores
are non-negative. -/
theorem restaurant_match_score_spec
    (restaurant : RestaurantSummary) (ta : TasteAttributes)
    (meals : List ScoredMeal) (hm : ∀ m ∈ meals, 0 ≤ m.score) :
    calculateRestaurantMatchScore restaurant ta meals =
      jsRound (30 * ((ta.cuisines.filter
            (fun c => strIncludes (restaurantTextOf restaurant) c)).length : Rat) +
        20 * ((ta.dietary.filter
            (fun d => strIncludes (restaurantTextOf restaurant) d)).length : Rat) +
        (match meals with
          | [] => (0 : Rat)
          | m :: _ => min ((m.score : Rat) / 10) 40) +
        (if 4 < restaurant.rating then (10 : Rat) else 0)) ∧
    0 ≤ calculateRestaurantMatchScore restaurant ta meals := by
  have heq : calculateRestaurantMatchScore restaurant ta meals =
      jsRound (30 * ((ta.cuisines.filter
            (fun c => strIncludes (restaurantTextOf restaurant) c)).length : Rat) +
        20 * ((ta.dietary.filter
            (fun d => strIncludes (restaurantTextOf restaurant) d)).length : Rat) +
        (match meals with
          | [] => (0 : Rat)
          | m :: _ => min ((m.score : Rat) / 10) 40) +
        (if 4 < restaurant.rating then (10 : Rat) else 0)) := by
    simp only [calculateRestaurantMatchScore]
    rw [guardedFold, guardedFold]
    rcases meals with _ | ⟨m, rest⟩ <;> split_ifs <;> (congr 1; ring)
  refine ⟨heq, ?_⟩
  rw [heq]
  have hc : (0 : Rat) ≤ ((ta.cuisines.filter
      (fun c => strIncludes (restaurantTextOf restaurant) c)).length : Rat) :=
    Nat.cast_nonneg _
  have hd : (0 : Rat) ≤ ((ta.dietary.filter
      (fun d => strIncludes (restaurantTextOf restaurant) d)).length : Rat) :=
    Nat.cast_nonneg _
  have hR : (0 : Rat) ≤ (if 4 < restaurant.rating then (10 : Rat) else 0) := by
    split_ifs <;> norm_num
  rcases meals with _ | ⟨m, rest⟩
  · exact jsRound_nonneg _ (by linarith)
  · have h0 : (0 : Rat) ≤ (m.score : Rat) := by
      exact_mod_cast hm m (List.mem_cons_self m rest)
    have hmin : (0 : Rat) ≤ min ((m.score : Rat) / 10) 40 :=
      le_min (by positivity) (by norm_num)
    exact jsRound_nonneg _ (by linarith)

/-- Witness for claim C9 at a concrete restaurant, attribute set and meal
list with non-negative scores. -/
theorem restaurant_match_score_spec_witness :
    (∀ m ∈ topMeals, 0 ≤ m.score) ∧
      0 ≤ calculateRestaurantMatchScore thaiPlace thaiAttrs topMeals :=
  ⟨by decide, (restaurant_match_score_spec thaiPlace thaiAttrs topMeals (by decide)).2⟩
